import Mathlib

/-!
Verification development for the Sonar audio-verifier.

The session store is embedded from `audio-verifier/session_store.py`.
The verification pipeline orchestrator and the copyright detector
(`verification_pipeline.py`, `fingerprint.py`) are not part of the
source tree; they are modelled from the design specification, and each
such definition's doc comment says so.

Python floats are modelled as exact rationals (ℚ); at the confidence
values the claims mention (0.8, 0.79, 0.65, 0.9537428) the float and
rational comparisons agree.  Timestamps are modelled as natural
numbers supplied by the caller at each mutation.
-/

/-- Rounding a rational to 3 decimal places, modelling Python's
`round(x, 3)` (ties are negligible for the values at stake). -/
def round3 (q : ℚ) : ℚ := ((round (q * 1000) : ℤ) : ℚ) / 1000

/-- A verification session record, embedded from the JSON object built in
`SessionStore.create_session` (session_store.py).  `results` is an opaque
payload blob; `error` is a list of error strings as written by
`mark_failed`.  `initial_data` is an opaque caller-supplied blob. -/
structure Session where
  id : String
  verification_id : String
  status : String
  stage : String
  progress : ℚ
  created_at : Nat
  updated_at : Nat
  initial_data : String
  results : Option String
  error : Option (List String)
deriving DecidableEq

/-- The `updates` dictionary accepted by `SessionStore.update_session`.
An outer `none` means the key is absent from the dictionary; for
`results`/`error` the inner `Option` is the (possibly null) value, since
Python distinguishes an absent key from a key bound to `None`. -/
structure SessionUpdates where
  stage : Option String := none
  progress : Option ℚ := none
  status : Option String := none
  results : Option (Option String) := none
  error : Option (Option (List String)) := none
deriving DecidableEq

/-- Embeds `SessionStore.create_session` (session_store.py, lines 48-103):
the freshly stored record.  The generated UUID and the creation time are
supplied as arguments. -/
def create_session (verification_id : String) (initial_data : String)
    (session_id : String) (now : Nat) : Session :=
  { id := session_id
    verification_id := verification_id
    status := "processing"
    stage := "queued"
    progress := 0
    created_at := now
    updated_at := now
    initial_data := initial_data
    results := none
    error := none }

/-- Embeds `SessionStore.update_session` (session_store.py, lines 105-163):
each of the five recognised keys is applied when present, then
`updated_at` is set to the current time.  All other fields are copied. -/
def update_session (s : Session) (u : SessionUpdates) (now : Nat) : Session :=
  { s with
    stage := u.stage.getD s.stage
    progress := u.progress.getD s.progress
    status := u.status.getD s.status
    results := u.results.getD s.results
    error := u.error.getD s.error
    updated_at := now }

/-- Embeds `SessionStore.update_stage` (session_store.py, lines 276-298):
a convenience wrapper over `update_session` touching stage and progress. -/
def update_stage (s : Session) (stage_name : String) (progress : ℚ)
    (now : Nat) : Session :=
  update_session s { stage := some stage_name, progress := some progress } now

/-- Embeds `SessionStore.mark_completed` (session_store.py, lines 165-198). -/
def mark_completed (s : Session) (result_data : String) (now : Nat) : Session :=
  update_session s
    { status := some "completed"
      stage := some "completed"
      progress := some 1
      results := some (some result_data) } now

/-- The `error_data` dictionary accepted by `mark_failed`; `none` models an
absent key. -/
structure ErrorData where
  errors : Option (List String) := none
  stage_failed : Option String := none
  cancelled : Bool := false
deriving DecidableEq

/-- Embeds `SessionStore.mark_failed` (session_store.py, lines 200-230):
status is `cancelled` when requested else `failed`, stage becomes
`failed`, progress 0, and the stored error list defaults to the failing
stage name (or `unknown`) when no error list was supplied. -/
def mark_failed (s : Session) (e : ErrorData) (now : Nat) : Session :=
  update_session s
    { status := some (if e.cancelled then "cancelled" else "failed")
      stage := some "failed"
      progress := some 0
      error := some (some (e.errors.getD [e.stage_failed.getD "unknown"])) } now

/-- One mutation through the store's public interface. -/
inductive StoreOp
  | updateStageOp (stage_name : String) (progress : ℚ)
  | updateSessionOp (u : SessionUpdates)
  | markCompletedOp (result_data : String)
  | markFailedOp (e : ErrorData)
deriving DecidableEq

/-- Applies one store operation at time `now`. -/
def applyOp (now : Nat) (s : Session) : StoreOp → Session
  | StoreOp.updateStageOp n p => update_stage s n p now
  | StoreOp.updateSessionOp u => update_session s u now
  | StoreOp.markCompletedOp d => mark_completed s d now
  | StoreOp.markFailedOp e => mark_failed s e now

/-- Applies a timed sequence of store operations in order. -/
def applyOps (s : Session) : List (Nat × StoreOp) → Session
  | [] => s
  | (t, op) :: rest => applyOps (applyOp t s op) rest

/-- A candidate match as returned by the fingerprint-matching service:
the `(confidence, recording_id, title, artist)` tuple of the spec, with
possibly missing title/artist. -/
structure Candidate where
  confidence : ℚ
  recording_id : String
  title : Option String
  artist : Option String
deriving DecidableEq

/-- A surfaced copyright match (spec §3, CopyrightMatch). -/
structure CopyrightMatch where
  title : String
  artist : String
  confidence : ℚ
  recording_id : String
deriving DecidableEq

/-- The `copyright` result object surfaced by the detector. -/
structure CopyrightPayload where
  detected : Bool
  passed : Bool
  confidence : ℚ
  matchList : List CopyrightMatch
  checked : Bool
  error : Option String
deriving DecidableEq

/-- The error kinds the copyright check can encounter (spec §4.2):
matching-service/network errors, fingerprint-generation errors, missing
decoder backend, or any other exception. -/
inductive FpError
  | webService (msg : String)
  | fingerprintGeneration (msg : String)
  | noBackend (msg : String)
  | generic (msg : String)
deriving DecidableEq

/-- The message carried by a copyright-check error. -/
def FpError.message : FpError → String
  | FpError.webService m => m
  | FpError.fingerprintGeneration m => m
  | FpError.noBackend m => m
  | FpError.generic m => m

/-- Modelled from the spec: the `CopyrightDetector` configuration
(fingerprint.py is absent from the source tree; its unit tests show the
default api key `test` and default threshold 0.8). -/
structure CopyrightDetector where
  api_key : String := "test"
  confidence_threshold : ℚ := 4/5
deriving DecidableEq

/-- Modelled from the spec: a retained candidate rendered as a surfaced
match — missing title/artist default to `Unknown`, confidence rounded to
3 decimals (spec §4.2). -/
def mkMatch (c : Candidate) : CopyrightMatch :=
  { title := c.title.getD "Unknown"
    artist := c.artist.getD "Unknown"
    confidence := round3 c.confidence
    recording_id := c.recording_id }

/-- Maximum confidence across all candidates, 0 when there are none. -/
def maxConfidence (cands : List Candidate) : ℚ :=
  cands.foldr (fun c acc => max c.confidence acc) 0

/-- Modelled from the spec: `CopyrightDetector.check_copyright_from_path`
(fingerprint.py is absent from the source tree).  The fingerprinting and
service lookup are summarised by their outcome: either an error or the
ordered candidate list.  Candidates at or above the threshold are
retained in service order, capped at 5; `detected` is their non-emptiness
and `passed` its negation; the top-level confidence is the rounded
maximum over all candidates; errors degrade to an unchecked clear
result (spec §4.2). -/
def CopyrightDetector.check_copyright_from_path (d : CopyrightDetector)
    (outcome : Except FpError (List Candidate)) : CopyrightPayload :=
  match outcome with
  | Except.error e =>
    { detected := false
      passed := true
      confidence := 0
      matchList := []
      checked := false
      error := some e.message }
  | Except.ok cands =>
    let retained := ((cands.filter fun c =>
      d.confidence_threshold ≤ c.confidence).take 5).map mkMatch
    { detected := !retained.isEmpty
      passed := retained.isEmpty
      confidence := round3 (maxConfidence cands)
      matchList := retained
      checked := true
      error := none }

/-- Modelled from the spec: `CopyrightDetector.check_copyright` stages the
byte buffer into a scoped temporary file and delegates to the path form
(spec §4.2); the file staging has no effect on the returned payload. -/
def CopyrightDetector.check_copyright (d : CopyrightDetector)
    (outcome : Except FpError (List Candidate)) : CopyrightPayload :=
  d.check_copyright_from_path outcome

/-- The Quality Checker's verdict (external collaborator, spec §6):
`passed` plus the reported error strings. -/
structure QualityReport where
  passed : Bool
  errors : List String
deriving DecidableEq

/-- AnalysisResult (spec §3): always fully populated. -/
structure AnalysisResult where
  qualityScore : ℚ
  safetyPassed : Bool
  insights : List String
  concerns : List String
  recommendations : List String
deriving DecidableEq

/-- Modelled from the spec: the fixed safe-default analysis result
substituted when the upstream response cannot be parsed (spec §4.3). -/
def safe_default_analysis : AnalysisResult :=
  { qualityScore := 1/2
    safetyPassed := true
    insights := []
    concerns := []
    recommendations := [] }

/-- A JSON value, for the analysis-response payload. -/
inductive JVal
  | num (q : ℚ)
  | bool (b : Bool)
  | str (s : String)
  | arr (xs : List JVal)
  | obj (fields : List (String × JVal))
  | null

/-- First binding of a key in a JSON object's field list. -/
def lookupField (fs : List (String × JVal)) (k : String) : Option JVal :=
  match fs with
  | [] => none
  | (k2, v) :: rest => if k2 = k then some v else lookupField rest k

/-- Numeric JSON values. -/
def JVal.asNum : JVal → Option ℚ
  | JVal.num q => some q
  | _ => none

/-- Boolean JSON values. -/
def JVal.asBool : JVal → Option Bool
  | JVal.bool b => some b
  | _ => none

/-- String JSON values. -/
def JVal.asStr : JVal → Option String
  | JVal.str s => some s
  | _ => none

/-- Arrays whose elements are all strings. -/
def JVal.asStrList : JVal → Option (List String)
  | JVal.arr xs => xs.mapM JVal.asStr
  | _ => none

/-- Clamping into the unit interval, as applied to `qualityScore`. -/
def clamp01 (q : ℚ) : ℚ := min 1 (max 0 q)

/-- Modelled from the spec: `VerificationPipeline._parse_analysis_response`
(verification_pipeline.py is absent from the source tree).  The textual
step — extracting a fenced JSON block or parsing the raw text — is
summarised by its outcome `j : Option JVal` (`none` when the text parses
neither directly nor from a fenced block).  A well-formed object with all
five required keys yields the parsed result with `qualityScore` clamped
into [0,1]; anything else yields the fixed safe-default (spec §4.3). -/
def parse_analysis_response (j : Option JVal) : AnalysisResult :=
  match j with
  | some (JVal.obj fs) =>
    match (lookupField fs "qualityScore").bind JVal.asNum,
          (lookupField fs "safetyPassed").bind JVal.asBool,
          (lookupField fs "insights").bind JVal.asStrList,
          (lookupField fs "concerns").bind JVal.asStrList,
          (lookupField fs "recommendations").bind JVal.asStrList with
    | some q, some s, some i, some c, some r =>
      { qualityScore := clamp01 q
        safetyPassed := s
        insights := i
        concerns := c
        recommendations := r }
    | _, _, _, _, _ => safe_default_analysis
  | _ => safe_default_analysis

/-- Modelled from the spec: `VerificationPipeline._stage_analysis`
(verification_pipeline.py is absent from the source tree).  The analysis
endpoint call is summarised by its outcome: an exception message, or the
response text's parse outcome.  An endpoint exception is caught and
degrades to the safe defaults, like a parse failure
(spec §4.3 and the unit test test_analysis_handles_api_error). -/
def stage_analysis (call : Except String (Option JVal)) : AnalysisResult :=
  match call with
  | Except.error _ => safe_default_analysis
  | Except.ok j => parse_analysis_response j

/-- Modelled from the spec: `VerificationPipeline._calculate_approval`
(verification_pipeline.py is absent from the source tree), following the
spec §4.1 formula `approved = quality.passed AND NOT (copyright.detected
AND copyright.confidence >= 0.8)` together with safety, as the approval
unit tests require: the gate re-applies the 0.8 threshold to the
recorded confidence, so a detected match with confidence 0.95 blocks
approval (test_approval_fails_if_high_confidence_copyright) while one
with confidence 0.65 does not
(test_approval_ignores_low_confidence_copyright).  The conjunction
short-circuits like the Python `and`, so a result without a meaningful
confidence (detected false) never reads it. -/
def calculate_approval (q : QualityReport) (c : CopyrightPayload)
    (a : AnalysisResult) : Bool :=
  q.passed && a.safetyPassed && !(c.detected && decide ((4:ℚ)/5 ≤ c.confidence))

/-- The environment a pipeline run executes against: the outcome of each
external call, and the store's success verdict for each progress
update. -/
structure PipelineEnv where
  quality : QualityReport
  copyrightLookup : Except FpError (List Candidate)
  transcription : Except String String
  analysisCall : Except String (Option JVal)
  updOk : String → ℚ → Bool

/-- The terminal store call a run ends with: `mark_completed` with the
approval verdict, or `mark_failed` with the errors and failing stage. -/
inductive TerminalCall
  | markCompletedCall (approved : Bool)
  | markFailedCall (errors : List String) (stage_failed : String)
deriving DecidableEq

/-- What a run that did not abort reports: the stages it invoked, the
progress updates it made, and its terminal store call. -/
structure RunOutcome where
  invoked : List String
  updatesMade : List (String × ℚ)
  terminal : TerminalCall
deriving DecidableEq

/-- Modelled from the spec: `VerificationPipeline._update_stage`
(verification_pipeline.py is absent from the source tree): reports
`(stage_name, progress)` to the session store and raises a runtime
error when the store reports failure (spec §4.1, §7). -/
def pipeline_update_stage (env : PipelineEnv) (stage_name : String)
    (progress : ℚ) : Except String Unit :=
  if env.updOk stage_name progress then Except.ok ()
  else Except.error ("Failed to update session stage " ++ stage_name)

/-- Modelled from the spec: `VerificationPipeline.run`
(verification_pipeline.py is absent from the source tree).  Stages run in
order quality, copyright, transcription, analysis; each stage is bracketed
by progress reports through `pipeline_update_stage`, whose failure aborts
the run.  A failed quality check stops the run before the copyright,
transcription and analysis stages and ends in `mark_failed` with the
checker's errors and failing stage quality; a transcription failure is
terminal; copyright and analysis failures degrade and the run proceeds to
the decision (spec §4.1, §7). -/
def runP (env : PipelineEnv) : Except String RunOutcome :=
  match pipeline_update_stage env "quality" (15/100) with
  | Except.error m => Except.error m
  | Except.ok _ =>
  match pipeline_update_stage env "quality" (30/100) with
  | Except.error m => Except.error m
  | Except.ok _ =>
  if env.quality.passed = false then
    Except.ok
      { invoked := ["quality"]
        updatesMade := [("quality", 15/100), ("quality", 30/100)]
        terminal := TerminalCall.markFailedCall env.quality.errors "quality" }
  else
  match pipeline_update_stage env "copyright" (35/100) with
  | Except.error m => Except.error m
  | Except.ok _ =>
  match pipeline_update_stage env "copyright" (50/100) with
  | Except.error m => Except.error m
  | Except.ok _ =>
  match pipeline_update_stage env "transcription" (55/100) with
  | Except.error m => Except.error m
  | Except.ok _ =>
  match env.transcription with
  | Except.error e => Except.error ("Failed to transcribe: " ++ e)
  | Except.ok _ =>
  match pipeline_update_stage env "transcription" (70/100) with
  | Except.error m => Except.error m
  | Except.ok _ =>
  match pipeline_update_stage env "analysis" (75/100) with
  | Except.error m => Except.error m
  | Except.ok _ =>
  match pipeline_update_stage env "analysis" (90/100) with
  | Except.error m => Except.error m
  | Except.ok _ =>
  let cp := ({} : CopyrightDetector).check_copyright_from_path env.copyrightLookup
  let an := stage_analysis env.analysisCall
  Except.ok
    { invoked := ["quality", "copyright", "transcription", "analysis"]
      updatesMade :=
        [("quality", 15/100), ("quality", 30/100),
         ("copyright", 35/100), ("copyright", 50/100),
         ("transcription", 55/100), ("transcription", 70/100),
         ("analysis", 75/100), ("analysis", 90/100)]
      terminal := TerminalCall.markCompletedCall
        (calculate_approval env.quality cp an) }

/-- Applies the run's terminal store call to a stored session, through the
session store embedded above. -/
def apply_terminal (s : Session) (t : TerminalCall) (now : Nat) : Session :=
  match t with
  | TerminalCall.markCompletedCall approved =>
    mark_completed s (if approved then "approved" else "rejected") now
  | TerminalCall.markFailedCall errs stage_failed =>
    mark_failed s { errors := some errs, stage_failed := some stage_failed } now

/-- Environment for a run against healthy collaborators. -/
def envAllOk : PipelineEnv :=
  { quality := { passed := true, errors := [] }
    copyrightLookup := Except.ok []
    transcription := Except.ok "transcript"
    analysisCall := Except.ok none
    updOk := fun _ _ => true }

/-- Environment whose quality check fails with a silence error. -/
def envQualityFail : PipelineEnv :=
  { quality := { passed := false, errors := ["Too much silence"] }
    copyrightLookup := Except.ok []
    transcription := Except.ok "transcript"
    analysisCall := Except.ok none
    updOk := fun _ _ => true }

/-- Environment whose session store rejects every progress update. -/
def envStoreDown : PipelineEnv :=
  { quality := { passed := true, errors := [] }
    copyrightLookup := Except.ok []
    transcription := Except.ok "transcript"
    analysisCall := Except.ok none
    updOk := fun _ _ => false }

/-- C1 counterexample: at the repository's own test input — quality
passed, safety passed, copyright detected with confidence 0.65
(test_approval_ignores_low_confidence_copyright) — `_calculate_approval`
approves even though `detected` is true, so a `detected == True` match
does not block approval regardless of the recorded confidence: the gate
re-applies the 0.8 confidence threshold. -/
theorem c1_counterexample :
    calculate_approval { passed := true, errors := [] }
      { detected := true, passed := false, confidence := 13/20,
        matchList := [], checked := true, error := none }
      { qualityScore := 1/2, safetyPassed := true, insights := [],
        concerns := [], recommendations := [] } = true ∧
    ({ detected := true, passed := false, confidence := 13/20,
        matchList := [], checked := true, error := none } :
      CopyrightPayload).detected = true := by
  refine ⟨?_, rfl⟩
  norm_num [calculate_approval]

/-- C1 (amended): approval holds iff quality passed, safety passed, and
the copyright result is not a detected match whose recorded confidence
is at least 0.8 — the gate re-applies the 0.8 threshold to the recorded
confidence rather than trusting the detector's `detected` flag alone: a
detected match with confidence 0.95 blocks approval, one with 0.65 does
not, and quality or safety failure each block on their own. -/
theorem c1_approval_rethreshold (q : QualityReport) (c : CopyrightPayload)
    (a : AnalysisResult) :
    (calculate_approval q c a = true ↔
      (q.passed = true ∧ a.safetyPassed = true ∧
       ¬(c.detected = true ∧ (4:ℚ)/5 ≤ c.confidence))) ∧
    calculate_approval { q with passed := false } c a = false ∧
    calculate_approval q c { a with safetyPassed := false } = false ∧
    calculate_approval { passed := true, errors := [] }
      { detected := false, passed := true, confidence := 0,
        matchList := [], checked := true, error := none }
      { qualityScore := 1/2, safetyPassed := true, insights := [],
        concerns := [], recommendations := [] } = true ∧
    calculate_approval { passed := true, errors := [] }
      { detected := true, passed := false, confidence := 95/100,
        matchList := [], checked := true, error := none }
      { qualityScore := 1/2, safetyPassed := true, insights := [],
        concerns := [], recommendations := [] } = false ∧
    calculate_approval { passed := true, errors := [] }
      { detected := true, passed := false, confidence := 13/20,
        matchList := [], checked := true, error := none }
      { qualityScore := 1/2, safetyPassed := true, insights := [],
        concerns := [], recommendations := [] } = true := by
  refine ⟨?_, ?_, ?_, ?_, ?_, ?_⟩
  · simp [calculate_approval, Bool.and_eq_true, Bool.not_eq_true',
      Bool.and_eq_false_iff, decide_eq_false_iff_not, not_and_or,
      Bool.not_eq_true, and_assoc]
    intro _ _
    cases c.detected <;> simp
  · simp [calculate_approval]
  · simp [calculate_approval]
  · norm_num [calculate_approval]
  · norm_num [calculate_approval]
  · norm_num [calculate_approval]

/-- C5: every copyright-check error (web-service, fingerprint generation,
missing decoder backend, or generic) is converted by both entry points
into a result with `detected` false, `checked` false and the error
message, instead of being propagated. -/
theorem c5_copyright_error_degrades (d : CopyrightDetector) (e : FpError) :
    (d.check_copyright_from_path (Except.error e)).detected = false ∧
    (d.check_copyright_from_path (Except.error e)).checked = false ∧
    (d.check_copyright_from_path (Except.error e)).error = some e.message ∧
    d.check_copyright (Except.error e) = d.check_copyright_from_path (Except.error e) :=
  ⟨rfl, rfl, rfl, rfl⟩

/-- C7: when the response text parses neither directly nor from a fenced
code block, `_parse_analysis_response` returns exactly the fixed
safe-default result. -/
theorem c7_parse_failure_safe_default :
    parse_analysis_response none =
      { qualityScore := 1/2
        safetyPassed := true
        insights := []
        concerns := []
        recommendations := [] } := rfl

/-- C10: an exception from the analysis endpoint call itself is caught by
`_stage_analysis` and yields the same fixed safe-default result as a parse
failure, and a run whose analysis call raised still completes. -/
theorem c10_analysis_api_error_safe_default (msg : String) :
    stage_analysis (Except.error msg) = safe_default_analysis ∧
    stage_analysis (Except.error msg) = parse_analysis_response none ∧
    (stage_analysis (Except.error msg)).qualityScore = 1/2 ∧
    (stage_analysis (Except.error msg)).safetyPassed = true ∧
    (runP
      { quality := { passed := true, errors := [] }
        copyrightLookup := Except.ok []
        transcription := Except.ok "transcript"
        analysisCall := Except.error "API Error"
        updOk := fun _ _ => true }).isOk = true :=
  ⟨rfl, rfl, rfl, rfl, rfl⟩

/-- C3: on a successful lookup the retained matches are exactly the
candidates at or above the 0.8 default threshold, in service order,
capped at 5; `detected` holds exactly when some candidate reaches the
threshold (equivalently, the retained list is non-empty) and `passed` is
its negation; confidence exactly 0.80 is retained and 0.79 is not. -/
theorem c3_retained_threshold_order_cap (cands : List Candidate) :
    (({} : CopyrightDetector).check_copyright_from_path (Except.ok cands)).matchList =
      ((cands.filter fun c => (4:ℚ)/5 ≤ c.confidence).take 5).map mkMatch ∧
    List.Sublist
      ((({} : CopyrightDetector).check_copyright_from_path (Except.ok cands)).matchList)
      (cands.map mkMatch) ∧
    (({} : CopyrightDetector).check_copyright_from_path (Except.ok cands)).matchList.length ≤ 5 ∧
    ((({} : CopyrightDetector).check_copyright_from_path (Except.ok cands)).detected = true ↔
      ∃ c ∈ cands, (4:ℚ)/5 ≤ c.confidence) ∧
    ((({} : CopyrightDetector).check_copyright_from_path (Except.ok cands)).detected = true ↔
      (({} : CopyrightDetector).check_copyright_from_path (Except.ok cands)).matchList ≠ []) ∧
    (({} : CopyrightDetector).check_copyright_from_path (Except.ok cands)).passed =
      !(({} : CopyrightDetector).check_copyright_from_path (Except.ok cands)).detected ∧
    (({} : CopyrightDetector).check_copyright_from_path
      (Except.ok [{ confidence := 4/5, recording_id := "rec", title := none, artist := none }])).detected = true ∧
    (({} : CopyrightDetector).check_copyright_from_path
      (Except.ok [{ confidence := 79/100, recording_id := "rec", title := none, artist := none }])).detected = false := by
  refine ⟨rfl, ?_, ?_, ?_, ?_, ?_, ?_, ?_⟩
  · exact List.Sublist.map mkMatch
      ((List.take_sublist _ _).trans (List.filter_sublist _))
  · simp only [CopyrightDetector.check_copyright_from_path, List.length_map]
    exact (List.length_take_le _ _)
  · simp only [CopyrightDetector.check_copyright_from_path]
    simp [List.take_eq_nil_iff, List.filter_eq_nil_iff]
  · simp only [CopyrightDetector.check_copyright_from_path]
    simp
  · simp only [CopyrightDetector.check_copyright_from_path]
    simp
  · norm_num [CopyrightDetector.check_copyright_from_path, List.filter]
  · norm_num [CopyrightDetector.check_copyright_from_path, List.filter]

/-- C4: the reported top-level confidence is the rounded maximum
confidence over all candidates, retained or not (a single 0.65 candidate
surfaces confidence 0.65 with detected false), every surfaced confidence
is a multiple of 1/1000 and comes from rounding a candidate's confidence
to 3 decimals, and input 0.9537428 surfaces as 0.954 both at top level
and on the match. -/
theorem c4_confidence_max_and_rounded (cands : List Candidate) :
    (({} : CopyrightDetector).check_copyright_from_path (Except.ok cands)).confidence =
      round3 (maxConfidence cands) ∧
    (∃ k : ℤ, (({} : CopyrightDetector).check_copyright_from_path (Except.ok cands)).confidence =
      (k : ℚ)/1000) ∧
    (∀ m ∈ (({} : CopyrightDetector).check_copyright_from_path (Except.ok cands)).matchList,
      (∃ c ∈ cands, m.confidence = round3 c.confidence) ∧
      ∃ k : ℤ, m.confidence = (k : ℚ)/1000) ∧
    (({} : CopyrightDetector).check_copyright_from_path
      (Except.ok [{ confidence := 13/20, recording_id := "rec", title := none, artist := none }])).confidence = 13/20 ∧
    (({} : CopyrightDetector).check_copyright_from_path
      (Except.ok [{ confidence := 13/20, recording_id := "rec", title := none, artist := none }])).detected = false ∧
    (({} : CopyrightDetector).check_copyright_from_path
      (Except.ok [{ confidence := 9537428/10000000, recording_id := "rec", title := some "Song", artist := some "Artist" }])).confidence = 954/1000 ∧
    ((({} : CopyrightDetector).check_copyright_from_path
      (Except.ok [{ confidence := 9537428/10000000, recording_id := "rec", title := some "Song", artist := some "Artist" }])).matchList.map
        CopyrightMatch.confidence) = [954/1000] := by
  refine ⟨rfl, ⟨round (maxConfidence cands * 1000), rfl⟩, ?_, ?_, ?_, ?_, ?_⟩
  · intro m hm
    simp only [CopyrightDetector.check_copyright_from_path, List.mem_map] at hm
    obtain ⟨c, hc, rfl⟩ := hm
    have hcands : c ∈ cands :=
      List.mem_of_mem_filter (List.take_subset _ _ hc)
    exact ⟨⟨c, hcands, rfl⟩, round (c.confidence * 1000), rfl⟩
  · norm_num [CopyrightDetector.check_copyright_from_path, maxConfidence, round3]
  · norm_num [CopyrightDetector.check_copyright_from_path, List.filter]
  · norm_num [CopyrightDetector.check_copyright_from_path, maxConfidence, round3,
      round_eq]
  · norm_num [CopyrightDetector.check_copyright_from_path, List.filter, mkMatch,
      round3, round_eq]

/-- C9: `update_session` (and hence `update_stage`, `mark_completed`,
`mark_failed`, which are wrappers over it) never touches `id`,
`verification_id`, `initial_data` or `created_at`; a field among
stage/progress/status/results/error changes only when named in the
update, and then to the supplied value; `updated_at` is set to the
mutation time and so advances whenever the clock does. -/
theorem c9_update_session_frame (s : Session) (u : SessionUpdates) (now : Nat) :
    (update_session s u now).id = s.id ∧
    (update_session s u now).verification_id = s.verification_id ∧
    (update_session s u now).initial_data = s.initial_data ∧
    (update_session s u now).created_at = s.created_at ∧
    (u.stage = none → (update_session s u now).stage = s.stage) ∧
    (u.progress = none → (update_session s u now).progress = s.progress) ∧
    (u.status = none → (update_session s u now).status = s.status) ∧
    (u.results = none → (update_session s u now).results = s.results) ∧
    (u.error = none → (update_session s u now).error = s.error) ∧
    (∀ v, u.stage = some v → (update_session s u now).stage = v) ∧
    (∀ v, u.progress = some v → (update_session s u now).progress = v) ∧
    (∀ v, u.status = some v → (update_session s u now).status = v) ∧
    (∀ v, u.results = some v → (update_session s u now).results = v) ∧
    (∀ v, u.error = some v → (update_session s u now).error = v) ∧
    (update_session s u now).updated_at = now ∧
    (s.updated_at < now → s.updated_at < (update_session s u now).updated_at) ∧
    (∀ n p, (update_stage s n p now).id = s.id ∧
      (update_stage s n p now).verification_id = s.verification_id ∧
      (update_stage s n p now).initial_data = s.initial_data ∧
      (update_stage s n p now).created_at = s.created_at ∧
      (update_stage s n p now).status = s.status ∧
      (update_stage s n p now).results = s.results ∧
      (update_stage s n p now).error = s.error ∧
      (update_stage s n p now).updated_at = now) ∧
    (∀ d, (mark_completed s d now).id = s.id ∧
      (mark_completed s d now).verification_id = s.verification_id ∧
      (mark_completed s d now).initial_data = s.initial_data ∧
      (mark_completed s d now).created_at = s.created_at ∧
      (mark_completed s d now).updated_at = now) ∧
    (∀ e, (mark_failed s e now).id = s.id ∧
      (mark_failed s e now).verification_id = s.verification_id ∧
      (mark_failed s e now).initial_data = s.initial_data ∧
      (mark_failed s e now).created_at = s.created_at ∧
      (mark_failed s e now).updated_at = now) := by
  refine ⟨rfl, rfl, rfl, rfl, ?_, ?_, ?_, ?_, ?_, ?_, ?_, ?_, ?_, ?_, rfl, ?_,
    ?_, ?_, ?_⟩
  · intro h; simp [update_session, h]
  · intro h; simp [update_session, h]
  · intro h; simp [update_session, h]
  · intro h; simp [update_session, h]
  · intro h; simp [update_session, h]
  · intro v h; simp [update_session, h]
  · intro v h; simp [update_session, h]
  · intro v h; simp [update_session, h]
  · intro v h; simp [update_session, h]
  · intro v h; simp [update_session, h]
  · intro h; exact h
  · intro n p; exact ⟨rfl, rfl, rfl, rfl, rfl, rfl, rfl, rfl⟩
  · intro d; exact ⟨rfl, rfl, rfl, rfl, rfl⟩
  · intro e; exact ⟨rfl, rfl, rfl, rfl, rfl⟩

/-- Witness for C9 at a concrete session and update. -/
theorem c9_update_session_frame_witness :
    (update_session (create_session "ver1" "blob" "sid1" 2)
        { stage := some "quality", progress := some (3/10) } 7).initial_data =
      (create_session "ver1" "blob" "sid1" 2).initial_data ∧
    (update_session (create_session "ver1" "blob" "sid1" 2)
        { stage := some "quality", progress := some (3/10) } 7).status =
      (create_session "ver1" "blob" "sid1" 2).status ∧
    (update_session (create_session "ver1" "blob" "sid1" 2)
        { stage := some "quality", progress := some (3/10) } 7).stage = "quality" ∧
    (update_session (create_session "ver1" "blob" "sid1" 2)
        { stage := some "quality", progress := some (3/10) } 7).updated_at = 7 ∧
    (create_session "ver1" "blob" "sid1" 2).updated_at <
      (update_session (create_session "ver1" "blob" "sid1" 2)
        { stage := some "quality", progress := some (3/10) } 7).updated_at := by
  obtain ⟨h1, h2, h3, h4, h5, h6, h7, h8, h9, h10, h11, h12, h13, h14, h15,
    h16, h17, h18, h19⟩ :=
    c9_update_session_frame (create_session "ver1" "blob" "sid1" 2)
      { stage := some "quality", progress := some (3/10) } 7
  exact ⟨h3, h7 rfl, h10 "quality" rfl, h15, h16 (by decide)⟩

/-- A store operation that does not write status/results/error through the
generic `update_session` path: stage/progress updates and the two
dedicated terminal operations. -/
def goodStoreOp : StoreOp → Bool
  | StoreOp.updateStageOp _ _ => true
  | StoreOp.updateSessionOp u =>
    u.status.isNone && u.results.isNone && u.error.isNone
  | StoreOp.markCompletedOp _ => true
  | StoreOp.markFailedOp _ => true

/-- The two terminal store operations. -/
def isTerminalOp : StoreOp → Bool
  | StoreOp.markCompletedOp _ => true
  | StoreOp.markFailedOp _ => true
  | _ => false

/-- A session still in flight: processing, with neither results nor
error. -/
def ProcClean (s : Session) : Prop :=
  s.status = "processing" ∧ s.results = none ∧ s.error = none

/-- A properly finished session: terminal status and exactly one of
results/error populated. -/
def TermSettled (s : Session) : Prop :=
  (s.status = "completed" ∨ s.status = "failed" ∨ s.status = "cancelled") ∧
  ((s.results.isSome = true ∧ s.error = none) ∨
   (s.results = none ∧ s.error.isSome = true))

lemma applyOps_clean_or_settled (ops : List (Nat × StoreOp)) :
    ∀ s : Session, (∀ p ∈ ops, goodStoreOp p.2 = true) →
      ((ProcClean s ∧ (ops.countP fun p => isTerminalOp p.2) ≤ 1) ∨
       (TermSettled s ∧ (ops.countP fun p => isTerminalOp p.2) = 0)) →
      ProcClean (applyOps s ops) ∨ TermSettled (applyOps s ops) := by
  induction ops with
  | nil =>
    intro s _ h
    rcases h with ⟨h, _⟩ | ⟨h, _⟩
    · exact Or.inl h
    · exact Or.inr h
  | cons p rest ih =>
    obtain ⟨t, op⟩ := p
    intro s hgood hstart
    have hgoodop : goodStoreOp op = true := hgood (t, op) (List.mem_cons_self _ _)
    have hgoodrest : ∀ q ∈ rest, goodStoreOp q.2 = true :=
      fun q hq => hgood q (List.mem_cons_of_mem _ hq)
    cases op with
    | updateStageOp n pr =>
      have hcount : (((t, StoreOp.updateStageOp n pr) :: rest).countP
          fun p => isTerminalOp p.2) = rest.countP fun p => isTerminalOp p.2 := by
        simp [List.countP_cons, isTerminalOp]
      apply ih _ hgoodrest
      rcases hstart with ⟨⟨hs, hr, he⟩, hc⟩ | ⟨hsettled, hc⟩
      · rw [hcount] at hc
        exact Or.inl ⟨⟨hs, hr, he⟩, hc⟩
      · rw [hcount] at hc
        exact Or.inr ⟨hsettled, hc⟩
    | updateSessionOp u =>
      have hcount : (((t, StoreOp.updateSessionOp u) :: rest).countP
          fun p => isTerminalOp p.2) = rest.countP fun p => isTerminalOp p.2 := by
        simp [List.countP_cons, isTerminalOp]
      simp only [goodStoreOp, Bool.and_eq_true, Option.isNone_iff_eq_none] at hgoodop
      obtain ⟨⟨hst, hrs⟩, her⟩ := hgoodop
      have h1 : (update_session s u t).status = s.status := by
        simp [update_session, hst]
      have h2 : (update_session s u t).results = s.results := by
        simp [update_session, hrs]
      have h3 : (update_session s u t).error = s.error := by
        simp [update_session, her]
      apply ih _ hgoodrest
      rcases hstart with ⟨⟨hs, hr, he⟩, hc⟩ | ⟨⟨hs, hx⟩, hc⟩
      · rw [hcount] at hc
        refine Or.inl ⟨?_, hc⟩
        have hgoal : ProcClean (update_session s u t) := by
          unfold ProcClean
          rw [h1, h2, h3]
          exact ⟨hs, hr, he⟩
        exact hgoal
      · rw [hcount] at hc
        refine Or.inr ⟨?_, hc⟩
        have hgoal : TermSettled (update_session s u t) := by
          unfold TermSettled
          rw [h1, h2, h3]
          exact ⟨hs, hx⟩
        exact hgoal
    | markCompletedOp d =>
      have hcount : (((t, StoreOp.markCompletedOp d) :: rest).countP
          fun p => isTerminalOp p.2) = (rest.countP fun p => isTerminalOp p.2) + 1 := by
        simp [List.countP_cons, isTerminalOp]
      rcases hstart with ⟨⟨hs, hr, he⟩, hc⟩ | ⟨_, hc⟩
      · rw [hcount] at hc
        have hzero : (rest.countP fun p => isTerminalOp p.2) = 0 := by omega
        apply ih _ hgoodrest
        refine Or.inr ⟨⟨Or.inl rfl, Or.inl ⟨rfl, he⟩⟩, hzero⟩
      · rw [hcount] at hc
        omega
    | markFailedOp e =>
      have hcount : (((t, StoreOp.markFailedOp e) :: rest).countP
          fun p => isTerminalOp p.2) = (rest.countP fun p => isTerminalOp p.2) + 1 := by
        simp [List.countP_cons, isTerminalOp]
      rcases hstart with ⟨⟨hs, hr, he⟩, hc⟩ | ⟨_, hc⟩
      · rw [hcount] at hc
        have hzero : (rest.countP fun p => isTerminalOp p.2) = 0 := by omega
        have hstat : (mark_failed s e t).status = "cancelled" ∨
            (mark_failed s e t).status = "failed" := by
          cases hec : e.cancelled
          · right; simp [mark_failed, update_session, hec]
          · left; simp [mark_failed, update_session, hec]
        apply ih _ hgoodrest
        refine Or.inr ⟨⟨?_, Or.inr ⟨hr, rfl⟩⟩, hzero⟩
        rcases hstat with h | h
        · exact Or.inr (Or.inr h)
        · exact Or.inr (Or.inl h)
      · rw [hcount] at hc
        omega

/-- C8 counterexample: a bare status write through `update_session` — one
of the store operations the claim allows — leaves a session whose status
is no longer processing while `results` and `error` are both still null,
so the exactly-one invariant fails as stated. -/
theorem c8_counterexample :
    (applyOps (create_session "ver1" "blob" "sid1" 0)
      [(1, StoreOp.updateSessionOp { status := some "completed" })]).status ≠
        "processing" ∧
    (applyOps (create_session "ver1" "blob" "sid1" 0)
      [(1, StoreOp.updateSessionOp { status := some "completed" })]).results = none ∧
    (applyOps (create_session "ver1" "blob" "sid1" 0)
      [(1, StoreOp.updateSessionOp { status := some "completed" })]).error = none := by
  refine ⟨?_, rfl, rfl⟩
  decide

/-- C8 (amended): for sessions mutated only through stage/progress
updates (update_stage, or update_session touching neither status nor
results nor error) and at most one terminal operation (mark_completed or
mark_failed), once status is no longer processing exactly one of
results/error is non-null and the status is one of completed, failed,
cancelled. -/
theorem c8_terminal_exactly_one (ops : List (Nat × StoreOp))
    (vid init sid : String) (t0 : Nat)
    (hgood : ∀ p ∈ ops, goodStoreOp p.2 = true)
    (hone : (ops.countP fun p => isTerminalOp p.2) ≤ 1)
    (hne : (applyOps (create_session vid init sid t0) ops).status ≠ "processing") :
    (((applyOps (create_session vid init sid t0) ops).results.isSome = true ∧
      (applyOps (create_session vid init sid t0) ops).error = none) ∨
     ((applyOps (create_session vid init sid t0) ops).results = none ∧
      (applyOps (create_session vid init sid t0) ops).error.isSome = true)) ∧
    ((applyOps (create_session vid init sid t0) ops).status = "completed" ∨
     (applyOps (create_session vid init sid t0) ops).status = "failed" ∨
     (applyOps (create_session vid init sid t0) ops).status = "cancelled") := by
  have h := applyOps_clean_or_settled ops (create_session vid init sid t0) hgood
    (Or.inl ⟨⟨rfl, rfl, rfl⟩, hone⟩)
  rcases h with h | h
  · exact absurd h.1 hne
  · exact ⟨h.2, h.1⟩

/-- Witness for C8 (amended) at a concrete run: a stage update followed by
mark_completed. -/
theorem c8_terminal_exactly_one_witness :
    (((applyOps (create_session "ver1" "blob" "sid1" 0)
        [(1, StoreOp.updateStageOp "quality" (3/10)),
         (2, StoreOp.markCompletedOp "payload")]).results.isSome = true ∧
      (applyOps (create_session "ver1" "blob" "sid1" 0)
        [(1, StoreOp.updateStageOp "quality" (3/10)),
         (2, StoreOp.markCompletedOp "payload")]).error = none) ∨
     ((applyOps (create_session "ver1" "blob" "sid1" 0)
        [(1, StoreOp.updateStageOp "quality" (3/10)),
         (2, StoreOp.markCompletedOp "payload")]).results = none ∧
      (applyOps (create_session "ver1" "blob" "sid1" 0)
        [(1, StoreOp.updateStageOp "quality" (3/10)),
         (2, StoreOp.markCompletedOp "payload")]).error.isSome = true)) ∧
    ((applyOps (create_session "ver1" "blob" "sid1" 0)
        [(1, StoreOp.updateStageOp "quality" (3/10)),
         (2, StoreOp.markCompletedOp "payload")]).status = "completed" ∨
     (applyOps (create_session "ver1" "blob" "sid1" 0)
        [(1, StoreOp.updateStageOp "quality" (3/10)),
         (2, StoreOp.markCompletedOp "payload")]).status = "failed" ∨
     (applyOps (create_session "ver1" "blob" "sid1" 0)
        [(1, StoreOp.updateStageOp "quality" (3/10)),
         (2, StoreOp.markCompletedOp "payload")]).status = "cancelled") :=
  c8_terminal_exactly_one
    [(1, StoreOp.updateStageOp "quality" (3/10)),
     (2, StoreOp.markCompletedOp "payload")]
    "ver1" "blob" "sid1" 0
    (by decide)
    (by decide)
    (by decide)

/-- C2 counterexample: with a failing quality check the run does stop
after the quality stage and hands the checker's errors to `mark_failed`
with failing stage quality — but the stored session's `stage` field ends
as `failed` (set unconditionally by `SessionStore.mark_failed`), not
`quality` as the claim states. -/
theorem c2_counterexample :
    runP envQualityFail = Except.ok
      { invoked := ["quality"]
        updatesMade := [("quality", 15/100), ("quality", 30/100)]
        terminal := TerminalCall.markFailedCall ["Too much silence"] "quality" } ∧
    (apply_terminal (create_session "ver1" "blob" "sid1" 0)
      (TerminalCall.markFailedCall ["Too much silence"] "quality") 9).status = "failed" ∧
    (apply_terminal (create_session "ver1" "blob" "sid1" 0)
      (TerminalCall.markFailedCall ["Too much silence"] "quality") 9).stage ≠ "quality" := by
  refine ⟨rfl, rfl, ?_⟩
  decide

/-- C2 (amended): whenever the quality checker reports passed false (and
the two quality progress reports are accepted by the store), the run
stops after the quality stage — copyright, transcription and analysis
are never invoked — and ends in `mark_failed` carrying the checker's
errors with the failing stage recorded as quality; the stored session
then has status failed, stage failed (the terminal stage written by
`mark_failed`), the checker's errors, and progress 0. -/
theorem c2_quality_fail_stops_run (env : PipelineEnv) (s : Session) (now : Nat)
    (hq : env.quality.passed = false)
    (h1 : env.updOk "quality" (15/100) = true)
    (h2 : env.updOk "quality" (30/100) = true) :
    runP env = Except.ok
      { invoked := ["quality"]
        updatesMade := [("quality", 15/100), ("quality", 30/100)]
        terminal := TerminalCall.markFailedCall env.quality.errors "quality" } ∧
    (∀ o, runP env = Except.ok o →
      ("copyright" ∉ o.invoked ∧ "transcription" ∉ o.invoked ∧
       "analysis" ∉ o.invoked)) ∧
    (apply_terminal s (TerminalCall.markFailedCall env.quality.errors "quality")
      now).status = "failed" ∧
    (apply_terminal s (TerminalCall.markFailedCall env.quality.errors "quality")
      now).stage = "failed" ∧
    (apply_terminal s (TerminalCall.markFailedCall env.quality.errors "quality")
      now).error = some env.quality.errors ∧
    (apply_terminal s (TerminalCall.markFailedCall env.quality.errors "quality")
      now).progress = 0 := by
  have hrun : runP env = Except.ok
      { invoked := ["quality"]
        updatesMade := [("quality", 15/100), ("quality", 30/100)]
        terminal := TerminalCall.markFailedCall env.quality.errors "quality" } := by
    simp [runP, pipeline_update_stage, h1, h2, hq]
  refine ⟨hrun, ?_, rfl, rfl, rfl, rfl⟩
  intro o ho
  rw [hrun] at ho
  injection ho with ho
  subst ho
  refine ⟨?_, ?_, ?_⟩
  · show "copyright" ∉ ["quality"]
    decide
  · show "transcription" ∉ ["quality"]
    decide
  · show "analysis" ∉ ["quality"]
    decide

/-- Witness for C2 (amended) at the concrete quality-failing
environment. -/
theorem c2_quality_fail_stops_run_witness :
    runP envQualityFail = Except.ok
      { invoked := ["quality"]
        updatesMade := [("quality", 15/100), ("quality", 30/100)]
        terminal := TerminalCall.markFailedCall ["Too much silence"] "quality" } ∧
    (apply_terminal (create_session "ver2" "blob2" "sid2" 1)
      (TerminalCall.markFailedCall ["Too much silence"] "quality") 4).status =
        "failed" ∧
    (apply_terminal (create_session "ver2" "blob2" "sid2" 1)
      (TerminalCall.markFailedCall ["Too much silence"] "quality") 4).error =
        some ["Too much silence"] := by
  have h := c2_quality_fail_stops_run envQualityFail
    (create_session "ver2" "blob2" "sid2" 1) 4 rfl rfl rfl
  exact ⟨h.1, h.2.2.1, h.2.2.2.2.1⟩

/-- C6: a progress update the store rejects is fatal — `_update_stage`
raises a runtime error; a run whose very first report is rejected aborts
with an error; and a run can only finish (return ok) when every progress
update it performed was accepted by the store, so it never continues
with unrecorded progress. -/
theorem c6_update_stage_failure_fatal :
    (∀ (env : PipelineEnv) (n : String) (p : ℚ), env.updOk n p = false →
      pipeline_update_stage env n p =
        Except.error ("Failed to update session stage " ++ n)) ∧
    (∀ env : PipelineEnv, env.updOk "quality" (15/100) = false →
      ∃ m, runP env = Except.error m) ∧
    (∀ (env : PipelineEnv) (o : RunOutcome), runP env = Except.ok o →
      ∀ c ∈ o.updatesMade, env.updOk c.1 c.2 = true) := by
  refine ⟨?_, ?_, ?_⟩
  · intro env n p h
    simp [pipeline_update_stage, h]
  · intro env h
    refine ⟨"Failed to update session stage " ++ "quality", ?_⟩
    simp [runP, pipeline_update_stage, h]
  · intro env o h c hc
    cases h1 : env.updOk "quality" (15/100) with
    | false => simp [runP, pipeline_update_stage, h1] at h
    | true =>
    cases h2 : env.updOk "quality" (30/100) with
    | false => simp [runP, pipeline_update_stage, h1, h2] at h
    | true =>
    cases hq : env.quality.passed with
    | false =>
      simp [runP, pipeline_update_stage, h1, h2, hq] at h
      rw [← h] at hc
      simp at hc
      rcases hc with hc | hc <;> rw [hc] <;> assumption
    | true =>
    cases h3 : env.updOk "copyright" (35/100) with
    | false => simp [runP, pipeline_update_stage, h1, h2, hq, h3] at h
    | true =>
    cases h4 : env.updOk "copyright" (50/100) with
    | false => simp [runP, pipeline_update_stage, h1, h2, hq, h3, h4] at h
    | true =>
    cases h5 : env.updOk "transcription" (55/100) with
    | false => simp [runP, pipeline_update_stage, h1, h2, hq, h3, h4, h5] at h
    | true =>
    cases ht : env.transcription with
    | error e => simp [runP, pipeline_update_stage, h1, h2, hq, h3, h4, h5, ht] at h
    | ok tr =>
    cases h6 : env.updOk "transcription" (70/100) with
    | false => simp [runP, pipeline_update_stage, h1, h2, hq, h3, h4, h5, ht, h6] at h
    | true =>
    cases h7 : env.updOk "analysis" (75/100) with
    | false => simp [runP, pipeline_update_stage, h1, h2, hq, h3, h4, h5, ht, h6, h7] at h
    | true =>
    cases h8 : env.updOk "analysis" (90/100) with
    | false => simp [runP, pipeline_update_stage, h1, h2, hq, h3, h4, h5, ht, h6, h7, h8] at h
    | true =>
    simp [runP, pipeline_update_stage, h1, h2, hq, h3, h4, h5, ht, h6, h7, h8] at h
    rw [← h] at hc
    simp at hc
    rcases hc with hc | hc | hc | hc | hc | hc | hc | hc <;> rw [hc] <;> assumption

/-- Witness for C6: a store that rejects every update makes
`_update_stage` raise and the whole run abort; a run against a healthy
store only records accepted updates. -/
theorem c6_update_stage_failure_fatal_witness :
    pipeline_update_stage envStoreDown "quality" (15/100) =
      Except.error ("Failed to update session stage " ++ "quality") ∧
    (∃ m, runP envStoreDown = Except.error m) ∧
    envAllOk.updOk "quality" (15/100) = true := by
  refine ⟨c6_update_stage_failure_fatal.1 envStoreDown "quality" (15/100) rfl,
    c6_update_stage_failure_fatal.2.1 envStoreDown rfl,
    c6_update_stage_failure_fatal.2.2 envAllOk
      { invoked := ["quality", "copyright", "transcription", "analysis"]
        updatesMade :=
          [("quality", 15/100), ("quality", 30/100),
           ("copyright", 35/100), ("copyright", 50/100),
           ("transcription", 55/100), ("transcription", 70/100),
           ("analysis", 75/100), ("analysis", 90/100)]
        terminal := TerminalCall.markCompletedCall true }
      rfl ("quality", 15/100) ?_⟩
  simp
